import Mathlib

/-!
Verification of the GTP connection layer of a Gomoku assignment
(`gtp_connection.py`): coordinate codec, win detection (`check_result`,
`gogui_rules_final_result_cmd`), the `play`/`genmove` handlers, and the
command dispatcher (`get_cmd`).

The repository's `board.py` / `board_util.py` are not available; the
definitions below that come from those modules are modelled from the
specification and carry a doc comment starting `Modelled from the spec:`.
Everything else is a direct shallow embedding of `gtp_connection.py`.
-/

namespace Gomoku

/-! ## Color constants (values as in `board_util`, visible in the source's
comments: EMPTY=0, BLACK=1, WHITE=2, BORDER=3). -/

def EMPTY : Nat := 0
def BLACK : Nat := 1
def WHITE : Nat := 2
def BORDER : Nat := 3

/-- Modelled from the spec: `MAXSIZE` is imported from `board_util` (not in
src). The spec fixes the board size range to `[2, 25]` and `format_point`
asserts `MAXSIZE <= 25`, so `MAXSIZE = 25`. -/
def MAXSIZE : Nat := 25

/-! ## Board model -/

/-- Modelled from the spec: the external board collaborator (`board.py`, not
in src).  A square grid of side `size` addressed by a linear index over a
`(size+1) × (size+1)` extended array; each cell holds one of
EMPTY/BLACK/WHITE/BORDER; `current_player` is tracked on the board object. -/
structure Board where
  size : Nat
  cells : List Nat
  current_player : Nat
deriving DecidableEq

/-- Modelled from the spec: `board.get_color(point)` returns the cell's
color.  Out-of-range indices are sentinel space, read as BORDER. -/
def Board.get_color (b : Board) (i : Nat) : Nat :=
  b.cells.getD i BORDER

/-- Modelled from the spec: `board.reset(size)` produces an empty board;
index 0 plus the extra border row (row 0) and column (column 0) are BORDER
sentinel cells, the playable cells (row, col ∈ [1,size]) are EMPTY, and the
current player is reset to BLACK. The linear layout is `point = row*(size+1)
+ col`, matching `point_to_coord`'s `divmod(point, size+1)`. -/
def emptyBoard (size : Nat) : Board :=
  ⟨size,
   (List.range ((size + 1) * (size + 1))).map
     (fun i => if i / (size + 1) = 0 ∨ i % (size + 1) = 0 then BORDER else EMPTY),
   BLACK⟩

/-- Modelled from the spec: `board.get_empty_points()` enumerates the indices
of all EMPTY cells (BORDER cells are never EMPTY). -/
def Board.get_empty_points (b : Board) : List Nat :=
  (List.range ((b.size + 1) * (b.size + 1))).filter (fun i => b.get_color i = EMPTY)

/-- Modelled from the spec: `board.connected_component(point)` (in `board.py`,
not in src) returns the run-membership mask the win detector scans: a boolean
sequence over the full `(size+1)^2` extended index range where position `i`
is true iff `colorAt(i)` equals the color of the seed cell `point` (when the
seed is the first stone of the checked color, this is exactly the spec's
"position i is true iff colorAt(i) == color"). -/
def Board.connected_component (b : Board) (point : Nat) : List Bool :=
  (List.range ((b.size + 1) * (b.size + 1))).map
    (fun i => decide (b.get_color i = b.get_color point))

/-- Modelled from the spec: `board.connected_component_dia(point)` — the spec
says the diagonal checks run "over the *same* color mask", so it returns the
same mask as `connected_component`. -/
def Board.connected_component_dia (b : Board) (point : Nat) : List Bool :=
  b.connected_component point

/-- Modelled from the spec: `coord_to_point(row, col, boardsize)` from
`board_util` (not in src), the inverse of `point_to_coord`'s
`divmod(point, boardsize+1)`: `point = row*(boardsize+1) + col`. -/
def coord_to_point (row col boardsize : Nat) : Nat :=
  row * (boardsize + 1) + col

/-- Modelled from the spec: `GoBoardUtil.opponent(color)` swaps the two
player colors (`WHITE + BLACK - color`). -/
def opponent (color : Nat) : Nat :=
  WHITE + BLACK - color

/-! ## Win detector scans (`GtpConnection.check_result`, lines 621-842;
`gogui_rules_final_result_cmd` repeats the same loops verbatim).

The Python loops use an integer accumulator `match_...` and flag variables;
they are embedded as structural recursions over the mask. -/

/-- Inner loop of the column/diagonal checks:
`for j in range(checkpoint, len(final_list), stride): if final_list[j]==True:
match += 1` — counts every true at `checkpoint, checkpoint+stride, …` up to
the end of the mask.  The Python `range` terminates because the stride is
positive; the embedding uses fuel, and `fuel = L.length` suffices whenever
`1 ≤ stride`. -/
def countStride (L : List Bool) : Nat → Nat → Nat → Nat
  | _, _, 0 => 0
  | i, stride, fuel + 1 =>
    if i < L.length then
      (if L.getD i false then 1 else 0) + countStride L (i + stride) stride fuel
    else 0

/-- Outer loop of the column/diagonal checks (e.g. lines 673-692): scanning
`i` over the mask; a true position runs the inner stride count and adds it to
the accumulator; a false position triggers a win if the accumulator is ≥ 5
and otherwise resets it to 0.  Returns whether the `..._check` flag was set.
(The Python guard `and col_check != 1` is dead: the flag is set only
immediately before `break`.) -/
def strideScan (L : List Bool) (stride : Nat) : Nat → Nat → List Bool → Bool
  | _, _, [] => false
  | i, m, x :: rest =>
    if x then strideScan L stride (i + 1) (m + countStride L i stride L.length) rest
    else if 5 ≤ m then true
    else strideScan L stride (i + 1) 0 rest

/-- The row check (lines 653-665): a running count of consecutive true values,
reset at each false; a false encountered while the count is ≥ 5 sets the flag. -/
def rowScan : Nat → List Bool → Bool
  | _, [] => false
  | m, x :: rest =>
    if x then rowScan (m + 1) rest
    else if 5 ≤ m then true
    else rowScan 0 rest

/-- The first-stone scan (lines 631-644): `color_list` has
`(size+1)*(size+1) - 1` entries (indices `0 … (size+1)^2 - 2`); the counter
stops at the first index holding `color` and otherwise ends at the list
length `(size+1)^2 - 1`. -/
def firstStonePoint (b : Board) (color : Nat) : Nat :=
  match (List.range ((b.size + 1) * (b.size + 1) - 1)).findIdx? (fun i => b.get_color i = color) with
  | some i => i
  | none => (b.size + 1) * (b.size + 1) - 1

/-- One color's pass of the detector (lines 646-744 for BLACK, 758-836 for
WHITE): build the masks from the seed point, run the row check, the column
check (stride `size+1`), the forward diagonal check (stride `size+2`) and the
backward diagonal check (stride `size`); the color wins if any flag was set. -/
def checkColor (b : Board) (seed : Nat) : Bool :=
  let final_list := b.connected_component seed
  let final_list_dia := b.connected_component_dia seed
  rowScan 0 final_list
    || strideScan final_list (b.size + 1) 0 0 final_list
    || strideScan final_list_dia (b.size + 2) 0 0 final_list_dia
    || strideScan final_list_dia b.size 0 0 final_list_dia

/-! ## Session state and verdict -/

/-- The GTP connection's session state: the board plus `self.gameOver` and
`self.win_color` (initialised `False` / `-1`). -/
structure Session where
  board : Board
  gameOver : Bool
  win_color : Int
deriving DecidableEq

/-- `GtpConnection.reset(size)` (lines 151-157). -/
def Session.reset (size : Nat) : Session :=
  ⟨emptyBoard size, false, -1⟩

/-- `GtpConnection.check_result` (lines 621-842): check BLACK first (its seed
is the first BLACK stone), then WHITE, then the draw test on
`get_empty_points`; on a win or draw set `gameOver` and `win_color`,
otherwise leave the session unchanged. -/
def check_result (s : Session) : Session :=
  if checkColor s.board (firstStonePoint s.board BLACK) then
    { s with gameOver := true, win_color := 1 }
  else if checkColor s.board (firstStonePoint s.board WHITE) then
    { s with gameOver := true, win_color := 2 }
  else if (s.board.get_empty_points).length = 0 then
    { s with gameOver := true, win_color := 3 }
  else s

/-- `GtpConnection.respond` (lines 146-149): writes `"= {response}\n\n"`. -/
def respond (response : String) : String :=
  "= " ++ response ++ "\n\n"

/-- `GtpConnection.error` (lines 141-144): writes `"? {error_msg}\n\n"`. -/
def error_resp (error_msg : String) : String :=
  "? " ++ error_msg ++ "\n\n"

/-- `gogui_rules_final_result_cmd` (lines 263-489): the same detector loops
as `check_result`, additionally responding "black"/"white"/"draw"/"unknown". -/
def gogui_rules_final_result_cmd (s : Session) : Session × String :=
  if checkColor s.board (firstStonePoint s.board BLACK) then
    ({ s with gameOver := true, win_color := 1 }, respond "black")
  else if checkColor s.board (firstStonePoint s.board WHITE) then
    ({ s with gameOver := true, win_color := 2 }, respond "white")
  else if (s.board.get_empty_points).length = 0 then
    ({ s with gameOver := true, win_color := 3 }, respond "draw")
  else (s, respond "unknown")

/-! ## Python string primitives used by the source

The handlers manipulate Python strings (`.lower()`, slicing, `int(...)`,
`str.split()`, `str.strip(...)`).  These builtins are modelled here on the
character list underlying a Lean `String`. -/

/-- Python `str.lower()` on one character (the protocol only sends basic
latin): `Char.toLower`. -/
def pyCharLower (c : Char) : Char :=
  Char.toLower c

/-- Python `str.lower()`. -/
def pyLower (s : String) : String :=
  ⟨s.data.map pyCharLower⟩

/-- Python slicing `s[k:]`. -/
def pyDrop (s : String) (k : Nat) : String :=
  ⟨s.data.drop k⟩

/-- Value of a nonempty all-digit character list (the digits of a Python
decimal literal). -/
def digitsVal (l : List Char) : Option Nat :=
  if l ≠ [] ∧ l.all Char.isDigit then
    some (l.foldl (fun a c => a * 10 + (c.toNat - 48)) 0)
  else none

/-- Python `int(s)` on the strings the protocol can produce: an optional
sign followed by decimal digits; anything else raises `ValueError`. -/
def pyInt (s : String) : Option Int :=
  match s.data with
  | '-' :: rest => (digitsVal rest).map (fun n => -(n : Int))
  | '+' :: rest => (digitsVal rest).map (fun n => (n : Int))
  | l => (digitsVal l).map (fun n => (n : Int))

/-- Python `command.strip(" \r\t")` (note: `\n` is not stripped). -/
def pyStrip (s : String) : String :=
  let ws : Char → Bool := fun c => c = ' ' ∨ c = '\r' ∨ c = '\t'
  ⟨((s.data.dropWhile ws).reverse.dropWhile ws).reverse⟩

/-- Helper for `pySplit`: accumulate the current token (reversed) while
scanning. -/
def splitWsAux : List Char → List Char → List String
  | [], acc => if acc = [] then [] else [⟨acc.reverse⟩]
  | c :: rest, acc =>
    if c.isWhitespace then
      if acc = [] then splitWsAux rest []
      else ⟨acc.reverse⟩ :: splitWsAux rest []
    else splitWsAux rest (c :: acc)

/-- Python `command.split()`: split on whitespace runs, no empty tokens. -/
def pySplit (s : String) : List String :=
  splitWsAux s.data []

/-- `re.sub("^\\d+", "", command).lstrip()` (line 104): drop the leading
digit run, then strip leading whitespace. -/
def strip_leading_number (command : String) : String :=
  ⟨(command.data.dropWhile Char.isDigit).dropWhile Char.isWhitespace⟩

/-! ## Coordinate codec (`point_to_coord`, `format_point`, `move_to_coord`,
`color_to_int`, lines 845-903) -/

/-- A decoded GTP move: the PASS sentinel or a (row, col) pair. -/
inductive GtpMove where
  | pass
  | rc (row col : Nat)
deriving DecidableEq

deriving instance DecidableEq for Except

/-- `point_to_coord(point, boardsize)` (lines 845-855) on non-PASS points:
`divmod(point, boardsize+1)`. -/
def point_to_coord (point boardsize : Nat) : Nat × Nat :=
  (point / (boardsize + 1), point % (boardsize + 1))

/-- The 25-letter column alphabet skipping "I" (line 863). -/
def column_letters : String := "ABCDEFGHJKLMNOPQRSTUVWXYZ"

/-- `format_point(move)` (lines 858-869) on a (row, col) move.  Python
raises `ValueError` unless `0 <= row < MAXSIZE and 0 <= col < MAXSIZE`
(`none` here); `column_letters[col - 1]` uses Python's negative indexing
when `col = 0` (index -1 is `'Z'`). -/
def format_point (row col : Nat) : Option String :=
  if row < MAXSIZE ∧ col < MAXSIZE then
    some (⟨[if col = 0 then 'Z' else column_letters.data.getD (col - 1) 'A']⟩ ++ toString row)
  else none

/-- The `try` block of `move_to_coord` (lines 883-894): first character must
be a lowercase letter other than `i`; its alphabet rank is incremented when
it precedes `i`; the rest parses as an integer row ≥ 1.  `none` models the
`ValueError`/`IndexError` caught at line 893. -/
def parse_body (s : String) : Option (Nat × Nat) :=
  match s.data with
  | [] => none
  | c :: rest =>
    if ¬('a' ≤ c ∧ c ≤ 'z') ∨ c = 'i' then none
    else
      let col0 := c.toNat - 'a'.toNat
      let col := if c < 'i' then col0 + 1 else col0
      match pyInt ⟨rest⟩ with
      | none => none
      | some row => if row < 1 then none else some (row.toNat, col)

/-- `move_to_coord(point_str, board_size)` (lines 872-897). -/
def move_to_coord (point_str : String) (board_size : Nat) : Except String GtpMove :=
  if ¬(2 ≤ board_size ∧ board_size ≤ MAXSIZE) then
    .error "board_size out of range"
  else if pyLower point_str = "pass" then
    .ok .pass
  else
    match parse_body (pyLower point_str) with
    | none => .error ("invalid point: '" ++ pyLower point_str ++ "'")
    | some (row, col) =>
      if ¬(col ≤ board_size ∧ row ≤ board_size) then
        .error ("point off board: '" ++ pyLower point_str ++ "'")
      else .ok (.rc row col)

/-- `color_to_int(c)` (lines 900-903): dictionary lookup with keys
`"b" "w" "e" "BORDER"`; a missing key raises `KeyError`, whose `str()` is
the quoted key. -/
def color_to_int (c : String) : Except String Nat :=
  if c = "b" then .ok BLACK
  else if c = "w" then .ok WHITE
  else if c = "e" then .ok EMPTY
  else if c = "BORDER" then .ok BORDER
  else .error ("'" ++ c ++ "'")

/-! ## play / genmove handlers (lines 491-573) -/

/-- `GtpConnection.play_cmd` (lines 491-543).  Every exception raised inside
the handler's `try` block is caught at line 542 and answered with
`respond("Error: {e}")`, so the handler always returns normally.  The
returned pair is (new session, response written).  Exception messages follow
Python: `KeyError` prints the quoted key, `board_move.lower()[0]` on an
empty string raises `IndexError("string index out of range")`, a failed
`int(...)` raises `ValueError("invalid literal for int() with base 10: …")`,
`move_to_coord` raises its own `ValueError`s, and subscripting the PASS
sentinel (`None`) raises a `TypeError`. -/
def play_cmd (s : Session) (arg0 arg1 : String) : Session × String :=
  match color_to_int (pyLower arg0) with
  | .error e => (s, respond ("Error: " ++ e))
  | .ok color =>
    if pyLower arg0 ≠ "b" ∧ pyLower arg0 ≠ "w" then
      (s, respond ("illegal move: \"" ++ pyLower arg0 ++ "\" wrong color"))
    else
      match (pyLower arg1).data.head? with
      | none => (s, respond "Error: string index out of range")
      | some c0 =>
        if ((c0.toNat : Int) - ('a'.toNat : Int)) > (s.board.size : Int) then
          (s, respond (pyLower ("illegal move: \"" ++ arg1 ++ "\" wrong coordinate")))
        else
          match pyInt (pyDrop arg1 1) with
          | none =>
            (s, respond ("Error: invalid literal for int() with base 10: '"
                         ++ pyDrop arg1 1 ++ "'"))
          | some rowv =>
            if rowv > (s.board.size : Int) then
              (s, respond (pyLower ("illegal move: \"" ++ arg1 ++ "\" wrong coordinate")))
            else if color = 3 then
              (s, respond ("illegal move: \"" ++ pyLower arg1 ++ "\" wrong coordinate"))
            else
              match move_to_coord arg1 s.board.size with
              | .error e => (s, respond ("Error: " ++ e))
              | .ok .pass => (s, respond "Error: 'NoneType' object is not subscriptable")
              | .ok (.rc row col) =>
                if s.board.get_color (coord_to_point row col s.board.size) ≠ EMPTY then
                  (s, respond ("illegal move: \"" ++ pyLower arg1 ++ "\" occupied"))
                else
                  ({ s with board := { s.board with
                       cells := s.board.cells.set (coord_to_point row col s.board.size) color,
                       current_player := opponent color } },
                   respond "")

/-- Result of invoking a handler: either a new session plus the responses it
wrote, or an uncaught exception (carrying the session as mutated before the
raise). -/
inductive HandlerResult where
  | ok (s : Session) (out : List String)
  | err (s : Session) (e : String)
deriving DecidableEq

/-- The session after a handler ran (normally or not). -/
def HandlerResult.session : HandlerResult → Session
  | .ok s _ => s
  | .err s _ => s

/-- `GtpConnection.genmove_cmd` (lines 545-573).  `np.random.shuffle` makes
the move choice nondeterministic, so the shuffled empty-point list is a
parameter.  `color_to_int` may raise (no `try` here — the exception
propagates, carrying the unmodified session); after `check_result` runs, a
missing `moves[0]` raises `IndexError` and an invalid `format_point` raises
`ValueError` with an empty message, both carrying the already-updated
session. -/
def genmove_cmd (s : Session) (arg0 : String) (shuffled : List Nat) : HandlerResult :=
  let board_color := pyLower arg0
  match color_to_int board_color with
  | .error e => .err s e
  | .ok color =>
    let s1 := check_result s
    if s1.gameOver = false then
      match shuffled.head? with
      | none => .err s1 "list index out of range"
      | some mv =>
        let move_coord := point_to_coord mv s1.board.size
        match format_point move_coord.1 move_coord.2 with
        | none => .err s1 ""
        | some str => .ok s1 [respond (pyLower str)]
    else if s1.win_color ≠ -1 ∧ s1.win_color ≠ (color : Int) ∧ s1.win_color ≠ 3 then
      .ok s1 [respond "resign"]
    else if s1.win_color = 3 then
      .ok s1 [respond "pass"]
    else
      .ok s1 [respond ""]

/-! ## Command dispatcher (`GtpConnection.get_cmd`, lines 94-123) -/

/-- A command handler as invoked by the dispatcher: argument list in,
session in, `HandlerResult` out. -/
def Handler := List String → Session → HandlerResult

/-- `protocol_version_cmd` (lines 162-164). -/
def protocol_version_handler : Handler := fun _ s =>
  .ok s [respond "2"]

/-- `clear_board_cmd` (lines 179-182): reset to the current size. -/
def clear_board_handler : Handler := fun _ s =>
  .ok (Session.reset s.board.size) [respond ""]

/-- `boardsize_cmd` (lines 184-189): `self.reset(int(args[0]))`.  A failed
`int(...)` propagates as `ValueError`; a missing argument cannot occur
through the dispatcher (arity-checked) but would raise `IndexError`.  A
negative parsed size is clamped to 0 here; in the source it goes to the
external `board.reset`, whose behavior on bad sizes is not specified (no
claim exercises it). -/
def boardsize_handler : Handler := fun args s =>
  match args with
  | [] => .err s "list index out of range"
  | a :: _ =>
    match pyInt a with
    | none => .err s ("invalid literal for int() with base 10: '" ++ a ++ "'")
    | some n => .ok (Session.reset n.toNat) [respond ""]

/-- `play_cmd` wrapped as a dispatcher handler: its internal `try` recovers
every exception — including a missing argument — as an `Error:` response, so
it never propagates one. -/
def play_handler : Handler := fun args s =>
  match args with
  | a0 :: a1 :: _ => let r := play_cmd s a0 a1; .ok r.1 [r.2]
  | _ => .ok s [respond "Error: list index out of range"]

/-- `genmove_cmd` wrapped as a dispatcher handler (shuffle passed through). -/
def genmove_handler (shuffled : List Nat) : Handler := fun args s =>
  match args with
  | a0 :: _ => genmove_cmd s a0 shuffled
  | [] => .err s "list index out of range"

/-- `gogui_rules_final_result_cmd` wrapped as a dispatcher handler. -/
def final_result_handler : Handler := fun _ s =>
  let r := gogui_rules_final_result_cmd s
  .ok r.1 [r.2]

/-- The session-relevant part of `self.commands` (lines 40-61).  The
remaining entries (`quit`, `name`, `version`, `komi`, `known_command`,
`list_commands`, `showboard`, `legal_moves` and the other `gogui-` display
commands) delegate to the external engine/board rendering and never touch
`gameOver`/`win_color`/the board. -/
def commands (shuffled : List Nat) : String → Option Handler := fun name =>
  if name = "protocol_version" then some protocol_version_handler
  else if name = "boardsize" then some boardsize_handler
  else if name = "clear_board" then some clear_board_handler
  else if name = "genmove" then some (genmove_handler shuffled)
  else if name = "play" then some play_handler
  else if name = "gogui-rules_final_result" then some final_result_handler
  else none

/-- `self.argmap` (lines 66-73): required argument count and usage message. -/
def argmap : String → Option (Nat × String) := fun name =>
  if name = "boardsize" then some (1, "Usage: boardsize INT")
  else if name = "komi" then some (1, "Usage: komi FLOAT")
  else if name = "known_command" then some (1, "Usage: known_command CMD_NAME")
  else if name = "genmove" then some (1, "Usage: genmove \x7bw,b\x7d")
  else if name = "play" then some (2, "Usage: play \x7bb,w\x7d MOVE")
  else if name = "legal_moves" then some (1, "Usage: legal_moves \x7bw,b\x7d")
  else none

/-- What one `get_cmd` call did: the session afterwards, the stdout
responses written, the `debug_msg` log lines, and the exception re-raised at
line 119 (if any). -/
structure CmdResult where
  session : Session
  outputs : List String
  debugLog : List String
  raised : Option String
deriving DecidableEq

/-- `GtpConnection.get_cmd` (lines 94-123), with the command table, the
argument map and the runtime stack trace as parameters: ignore
blank-after-strip lines and `#` lines; strip a leading line number; tokenize;
arity-check; dispatch.  A handler exception is logged (`debug_msg` twice,
lines 117-118) and re-raised (line 119); an unknown command is logged and
answered with `? Unknown command`. -/
def get_cmd (cmds : String → Option Handler) (amap : String → Option (Nat × String))
    (trace : String) (s : Session) (command : String) : CmdResult :=
  if (pyStrip command).length = 0 then ⟨s, [], [], none⟩
  else if command.data.headD ' ' = '#' then ⟨s, [], [], none⟩
  else
    let command1 := if (command.data.headD ' ').isDigit then strip_leading_number command
                    else command
    match pySplit command1 with
    | [] => ⟨s, [], [], none⟩
    | command_name :: args =>
      let argerr : Option String :=
        match amap command_name with
        | some (n, usage) => if n ≠ args.length then some usage else none
        | none => none
      match argerr with
      | some usage => ⟨s, [error_resp usage], [], none⟩
      | none =>
        match cmds command_name with
        | some handler =>
          match handler args s with
          | .ok s' out => ⟨s', out, [], none⟩
          | .err s' e =>
            ⟨s', [],
             ["Error executing command " ++ e ++ "\n",
              "Stack Trace:\n" ++ trace ++ "\n"],
             some e⟩
        | none =>
          ⟨s, [error_resp "Unknown command"],
           ["Unknown command: " ++ command_name ++ "\n"], none⟩

/-! ## Session-level command steps (for the session-state invariant) -/

/-- A dispatched command, by its effect class: the session-mutating commands
are embedded fully; `legal_moves` stands for `gogui-rules_legal_moves`
(lines 215-236), whose only session effect is its `check_result` call;
`inert` stands for every command that touches neither the board nor
`gameOver`/`win_color` (`protocol_version`, `name`, `version`, `komi`,
`known_command`, `list_commands`, `showboard`, the remaining `gogui-`
display commands). -/
inductive Cmd where
  | play (arg0 arg1 : String)
  | genmove (arg0 : String) (shuffled : List Nat)
  | boardsize (size : Nat)
  | clear_board
  | final_result
  | legal_moves
  | inert
deriving DecidableEq

/-- The two reset commands (`boardsize`, `clear_board`), the only ones that
call `GtpConnection.reset`. -/
def Cmd.isReset : Cmd → Bool
  | .boardsize _ => true
  | .clear_board => true
  | _ => false

/-- The session reached after one command. -/
def step (s : Session) : Cmd → Session
  | .play a0 a1 => (play_cmd s a0 a1).1
  | .genmove a0 sh => (genmove_cmd s a0 sh).session
  | .boardsize n => Session.reset n
  | .clear_board => Session.reset s.board.size
  | .final_result => (gogui_rules_final_result_cmd s).1
  | .legal_moves => check_result s
  | .inert => s

/-! ## Claim-side definitions

These follow the wording of the specification's claims (not the source);
they are compared against the embedded code in the theorems below. -/

/-- Claim wording: "at least 5 consecutive same-colored cells lie along that
stride" — five mask positions `start, start+stride, …, start+4·stride`, all
in range and all true. -/
def hasFiveAlongStride (L : List Bool) (stride : Nat) : Bool :=
  (List.range L.length).any fun start =>
    (List.range 5).all fun k => L.getD (start + k * stride) false

/-- Claim wording: the run count "over consecutive true mask positions,
stopping the accumulation at the first false or out-of-range position along
the stride" — the consecutive-true run length along the stride from `i`. -/
def consecRunLen (L : List Bool) : Nat → Nat → Nat → Nat
  | _, _, 0 => 0
  | i, stride, fuel + 1 =>
    if L.getD i false then 1 + consecRunLen L (i + stride) stride fuel else 0

/-- Amended-claim wording for the inner accumulation: the number of *all*
true positions on the stride line from `i` to the end of the mask
(`j ≥ i`, `j ≡ i (mod stride)`, `j < L.length`), with no stop at a false. -/
def strideLineTrues (L : List Bool) (i stride : Nat) : Nat :=
  ((Finset.range L.length).filter
    (fun j => i ≤ j ∧ (j - i) % stride = 0 ∧ L.getD j false = true)).card

/-- Amended-claim wording for the column/diagonal checks: scan the mask;
each true scan position adds `strideLineTrues` from it to the accumulator;
a false scan position signals a win if the accumulator is ≥ 5 and otherwise
resets it. -/
def strideScanAmended (L : List Bool) (stride : Nat) : Nat → Nat → List Bool → Bool
  | _, _, [] => false
  | i, m, x :: rest =>
    if x then strideScanAmended L stride (i + 1) (m + strideLineTrues L i stride) rest
    else if 5 ≤ m then true
    else strideScanAmended L stride (i + 1) 0 rest

/-- Claim wording: the color "has a 5-in-a-row" — five consecutive cells of
that color along a row, a column or one of the two diagonals, entirely on
the playable part of the board. -/
def hasFiveInRow (b : Board) (color : Nat) : Bool :=
  (List.range (b.size + 1)).any fun r =>
    (List.range (b.size + 1)).any fun c =>
      [((0 : Int), (1 : Int)), (1, 0), (1, 1), (1, -1)].any fun d =>
        (List.range 5).all fun k =>
          let rk : Int := (r : Int) + k * d.1
          let ck : Int := (c : Int) + k * d.2
          decide (1 ≤ rk) && decide (rk ≤ (b.size : Int)) &&
            decide (1 ≤ ck) && decide (ck ≤ (b.size : Int)) &&
            decide (b.get_color (rk * (b.size + 1) + ck).toNat = color)

/-- Claim wording: the number of stones of a color on the board. -/
def stoneCount (b : Board) (color : Nat) : Nat :=
  ((List.range ((b.size + 1) * (b.size + 1))).filter
    (fun i => b.get_color i = color)).length

/-! ## Concrete test boards used by counterexamples and witnesses -/

/-- Test fixture: place one stone. -/
def Board.withStone (b : Board) (color row col : Nat) : Board :=
  { b with cells := b.cells.set (row * (b.size + 1) + col) color }

/-- Size-7 board, BLACK at (1,1)…(1,5): a horizontal five-in-a-row. -/
def board_row5 : Board :=
  (((((emptyBoard 7).withStone BLACK 1 1).withStone BLACK 1 2).withStone
    BLACK 1 3).withStone BLACK 1 4).withStone BLACK 1 5

/-- Size-7 board, BLACK at (1,1),(2,1),(3,1),(5,1),(6,1): five stones in
column 1 with a gap at (4,1) — no five-in-a-row anywhere. -/
def board_gapcol : Board :=
  (((((emptyBoard 7).withStone BLACK 1 1).withStone BLACK 2 1).withStone
    BLACK 3 1).withStone BLACK 5 1).withStone BLACK 6 1

/-- Size-9 board, WHITE at (1,1)…(1,5) and BLACK at (9,5)…(9,9): both colors
have a horizontal five-in-a-row; BLACK's occupies the tail of the extended
index range. -/
def board_bothfive : Board :=
  ((((((((((emptyBoard 9).withStone WHITE 1 1).withStone WHITE 1 2).withStone
    WHITE 1 3).withStone WHITE 1 4).withStone WHITE 1 5).withStone
    BLACK 9 5).withStone BLACK 9 6).withStone BLACK 9 7).withStone
    BLACK 9 8).withStone BLACK 9 9

/-- Full size-2 board with no five-in-a-row: (1,1)=B, (1,2)=W, (2,1)=W,
(2,2)=B. -/
def board_full2 : Board :=
  ((((emptyBoard 2).withStone BLACK 1 1).withStone WHITE 1 2).withStone
    WHITE 2 1).withStone BLACK 2 2

/-- Command sequence on a fresh size-7 session: WHITE builds a1-e1, BLACK
builds a2-d2, then `genmove w` runs the result check — WHITE wins (BLACK's
four-run does not fire). -/
def cmds_white_wins : List Cmd :=
  [.play "w" "a1", .play "w" "b1", .play "w" "c1", .play "w" "d1",
   .play "b" "a2", .play "b" "b2", .play "b" "c2", .play "b" "d2",
   .play "w" "e1", .genmove "w" []]

/-- Continuation after the WHITE win: BLACK completes a2-e2 (play does not
guard a finished game) and `genmove b` re-runs the result check. -/
def cmds_after_win : List Cmd :=
  [.play "b" "e2", .genmove "b" []]

/-! ## Helper lemmas -/

theorem check_result_board (s : Session) : (check_result s).board = s.board := by
  unfold check_result
  split
  · rfl
  · split
    · rfl
    · split <;> rfl

theorem check_result_gameOver (s : Session) (h : s.gameOver = true) :
    (check_result s).gameOver = true := by
  unfold check_result
  split
  · rfl
  · split
    · rfl
    · split
      · rfl
      · exact h

theorem check_result_win_mem (s : Session)
    (h : s.win_color = 1 ∨ s.win_color = 2 ∨ s.win_color = 3) :
    (check_result s).win_color = 1 ∨ (check_result s).win_color = 2 ∨
      (check_result s).win_color = 3 := by
  unfold check_result
  split
  · exact Or.inl rfl
  · split
    · exact Or.inr (Or.inl rfl)
    · split
      · exact Or.inr (Or.inr rfl)
      · exact h

/-- One traversal of `play_cmd`'s branches: the handler never touches
`gameOver`/`win_color`, and every branch other than the success branch
(which responds `"= \n\n"`) returns the session unchanged. -/
theorem play_cmd_shape (s : Session) (a0 a1 : String) :
    (play_cmd s a0 a1).1.gameOver = s.gameOver ∧
      (play_cmd s a0 a1).1.win_color = s.win_color ∧
      ((play_cmd s a0 a1).1 = s ∨ (play_cmd s a0 a1).2 = respond "") := by
  unfold play_cmd
  cases h1 : color_to_int (pyLower a0) with
  | error e => exact ⟨rfl, rfl, Or.inl rfl⟩
  | ok color =>
    dsimp only
    by_cases h2 : pyLower a0 ≠ "b" ∧ pyLower a0 ≠ "w"
    · rw [if_pos h2]; exact ⟨rfl, rfl, Or.inl rfl⟩
    · rw [if_neg h2]
      cases h3 : (pyLower a1).data.head? with
      | none => exact ⟨rfl, rfl, Or.inl rfl⟩
      | some c0 =>
        dsimp only
        by_cases h4 : ((c0.toNat : Int) - ('a'.toNat : Int)) > (s.board.size : Int)
        · rw [if_pos h4]; exact ⟨rfl, rfl, Or.inl rfl⟩
        · rw [if_neg h4]
          cases h5 : pyInt (pyDrop a1 1) with
          | none => exact ⟨rfl, rfl, Or.inl rfl⟩
          | some rowv =>
            dsimp only
            by_cases h6 : rowv > (s.board.size : Int)
            · rw [if_pos h6]; exact ⟨rfl, rfl, Or.inl rfl⟩
            · rw [if_neg h6]
              by_cases h7 : color = 3
              · rw [if_pos h7]; exact ⟨rfl, rfl, Or.inl rfl⟩
              · rw [if_neg h7]
                cases h8 : move_to_coord a1 s.board.size with
                | error e => exact ⟨rfl, rfl, Or.inl rfl⟩
                | ok mv =>
                  cases mv with
                  | pass => exact ⟨rfl, rfl, Or.inl rfl⟩
                  | rc row col =>
                    dsimp only
                    by_cases h9 :
                        s.board.get_color (coord_to_point row col s.board.size) ≠ EMPTY
                    · rw [if_pos h9]; exact ⟨rfl, rfl, Or.inl rfl⟩
                    · rw [if_neg h9]; exact ⟨rfl, rfl, Or.inr rfl⟩

/-- `genmove_cmd` leaves the session alone (exception before the result
check) or replaces it by `check_result` of it; it makes no other session
change. -/
theorem genmove_cmd_session (s : Session) (a0 : String) (sh : List Nat) :
    (genmove_cmd s a0 sh).session = s ∨
      (genmove_cmd s a0 sh).session = check_result s := by
  unfold genmove_cmd
  dsimp only
  cases h1 : color_to_int (pyLower a0) with
  | error e => exact Or.inl rfl
  | ok color =>
    dsimp only
    by_cases h2 : (check_result s).gameOver = false
    · rw [if_pos h2]
      cases h3 : sh.head? with
      | none => exact Or.inr rfl
      | some mv =>
        dsimp only
        cases h4 : format_point (point_to_coord mv (check_result s).board.size).1
            (point_to_coord mv (check_result s).board.size).2 with
        | none => exact Or.inr rfl
        | some str => exact Or.inr rfl
    · rw [if_neg h2]
      by_cases h5 : (check_result s).win_color ≠ -1 ∧
          (check_result s).win_color ≠ (color : Int) ∧ (check_result s).win_color ≠ 3
      · rw [if_pos h5]; exact Or.inr rfl
      · rw [if_neg h5]
        by_cases h6 : (check_result s).win_color = 3
        · rw [if_pos h6]; exact Or.inr rfl
        · rw [if_neg h6]; exact Or.inr rfl

theorem char_toNat_ofNat_small (n : Nat) (h : n < 55296) : (Char.ofNat n).toNat = n := by
  rw [Char.ofNat, dif_pos (Or.inl h : n.isValidChar)]
  rfl

/-- Lowercasing never yields a basic-latin uppercase letter. -/
theorem pyCharLower_ne_upper (c : Char) (u : Char) (hu1 : 65 ≤ u.toNat) (hu2 : u.toNat ≤ 90) :
    pyCharLower c ≠ u := by
  intro h
  unfold pyCharLower Char.toLower at h
  dsimp only at h
  by_cases hc : c.toNat ≥ 65 ∧ c.toNat ≤ 90
  · rw [if_pos hc] at h
    have := congrArg Char.toNat h
    rw [char_toNat_ofNat_small (c.toNat + 32) (by omega)] at this
    omega
  · rw [if_neg hc] at h
    rw [h] at hc
    exact hc ⟨by omega, by omega⟩

/-- `args[0].lower()` can never equal the dictionary key `"BORDER"`, so the
`color_to_int` lookup in `play_cmd` can only succeed on `"b"`, `"w"`, `"e"`. -/
theorem pyLower_ne_BORDER (s : String) : pyLower s ≠ "BORDER" := by
  intro h
  have hd : (pyLower s).data = "BORDER".data := congrArg String.data h
  rw [show (pyLower s).data = s.data.map pyCharLower from rfl] at hd
  cases hl : s.data with
  | nil => rw [hl] at hd; simp at hd
  | cons c rest =>
    rw [hl] at hd
    simp only [List.map_cons] at hd
    have : pyCharLower c = 'B' := by
      have := congrArg (fun l => l.headD ' ') hd
      simpa using this
    exact pyCharLower_ne_upper c 'B' (by decide) (by decide) this

/-- Splitting off position `i` from the stride-line count: when `i` is in
range, the full count is the bit at `i` plus the count from `i + stride`. -/
theorem strideLineTrues_step (L : List Bool) (i stride : Nat) (hs : 1 ≤ stride)
    (hlt : i < L.length) :
    strideLineTrues L i stride =
      (if L.getD i false then 1 else 0) + strideLineTrues L (i + stride) stride := by
  unfold strideLineTrues
  have hPP : ∀ j, j ≠ i →
      ((i ≤ j ∧ (j - i) % stride = 0 ∧ L.getD j false = true) ↔
        (i + stride ≤ j ∧ (j - (i + stride)) % stride = 0 ∧ L.getD j false = true)) := by
    intro j hne
    constructor
    · rintro ⟨h1, h2, h3⟩
      have hdvd : stride ∣ (j - i) := Nat.dvd_iff_mod_eq_zero.mpr h2
      have hij : i < j := lt_of_le_of_ne h1 (fun h => hne h.symm)
      have hge : stride ≤ j - i := Nat.le_of_dvd (by omega) hdvd
      refine ⟨by omega, ?_, h3⟩
      have hsub : stride ∣ (j - i - stride) := Nat.dvd_sub' hdvd dvd_rfl
      have heq : j - (i + stride) = j - i - stride := by omega
      rw [heq]
      exact Nat.dvd_iff_mod_eq_zero.mp hsub
    · rintro ⟨h1, h2, h3⟩
      have hdvd : stride ∣ (j - (i + stride)) := Nat.dvd_iff_mod_eq_zero.mpr h2
      refine ⟨by omega, ?_, h3⟩
      have hadd : stride ∣ (j - (i + stride) + stride) := Nat.dvd_add hdvd dvd_rfl
      have heq : j - i = j - (i + stride) + stride := by omega
      rw [heq]
      exact Nat.dvd_iff_mod_eq_zero.mp hadd
  by_cases hLi : L.getD i false
  · rw [if_pos hLi]
    have hset : (Finset.range L.length).filter
        (fun j => i ≤ j ∧ (j - i) % stride = 0 ∧ L.getD j false = true) =
        insert i ((Finset.range L.length).filter
          (fun j => i + stride ≤ j ∧ (j - (i + stride)) % stride = 0 ∧
            L.getD j false = true)) := by
      ext j
      simp only [Finset.mem_filter, Finset.mem_insert, Finset.mem_range]
      constructor
      · rintro ⟨hjr, hP⟩
        by_cases hji : j = i
        · exact Or.inl hji
        · exact Or.inr ⟨hjr, (hPP j hji).mp hP⟩
      · rintro (hji | ⟨hjr, hP⟩)
        · subst hji
          exact ⟨hlt, le_refl _, by simp, hLi⟩
        · have hji : j ≠ i := by omega
          exact ⟨hjr, (hPP j hji).mpr hP⟩
    rw [hset, Finset.card_insert_of_not_mem]
    · omega
    · simp only [Finset.mem_filter, Finset.mem_range]
      rintro ⟨-, h1, -⟩
      omega
  · rw [if_neg hLi]
    have hset : (Finset.range L.length).filter
        (fun j => i ≤ j ∧ (j - i) % stride = 0 ∧ L.getD j false = true) =
        (Finset.range L.length).filter
          (fun j => i + stride ≤ j ∧ (j - (i + stride)) % stride = 0 ∧
            L.getD j false = true) := by
      ext j
      simp only [Finset.mem_filter, Finset.mem_range]
      constructor
      · rintro ⟨hjr, hP⟩
        by_cases hji : j = i
        · subst hji
          exact absurd hP.2.2 (by simpa using hLi)
        · exact ⟨hjr, (hPP j hji).mp hP⟩
      · rintro ⟨hjr, hP⟩
        have hji : j ≠ i := by
          intro h
          subst h
          omega
        exact ⟨hjr, (hPP j hji).mpr hP⟩
    rw [hset]
    omega

theorem strideLineTrues_zero (L : List Bool) (i stride : Nat) (hi : L.length ≤ i) :
    strideLineTrues L i stride = 0 := by
  unfold strideLineTrues
  rw [Finset.card_eq_zero]
  apply Finset.filter_eq_empty_iff.mpr
  intro j hj
  simp only [Finset.mem_range] at hj
  rintro ⟨h1, -, -⟩
  omega

/-- The inner loop of the column/diagonal checks counts exactly the true
mask positions on the whole stride line from `i` (no stop at a false). -/
theorem countStride_eq_strideLineTrues (L : List Bool) (stride : Nat) (hs : 1 ≤ stride) :
    ∀ (fuel i : Nat), L.length ≤ i + stride * fuel →
      countStride L i stride fuel = strideLineTrues L i stride := by
  intro fuel
  induction fuel with
  | zero =>
    intro i hi
    simp only [countStride]
    rw [strideLineTrues_zero L i stride (by omega)]
  | succ fuel ih =>
    intro i hi
    simp only [countStride]
    by_cases hlt : i < L.length
    · rw [if_pos hlt]
      rw [ih (i + stride) (by rw [Nat.mul_succ] at hi; omega)]
      rw [strideLineTrues_step L i stride hs hlt]
    · rw [if_neg hlt]
      rw [strideLineTrues_zero L i stride (by omega)]

/-- The column/diagonal check of the source equals the amended description
for any positive stride. -/
theorem strideScan_eq_amended (L : List Bool) (stride : Nat) (hs : 1 ≤ stride) :
    ∀ (rest : List Bool) (i m : Nat),
      strideScan L stride i m rest = strideScanAmended L stride i m rest := by
  intro rest
  induction rest with
  | nil => intro i m; rfl
  | cons x xs ih =>
    intro i m
    cases x with
    | true =>
      simp only [strideScan, strideScanAmended, if_pos]
      rw [countStride_eq_strideLineTrues L stride hs L.length i
            (by have := Nat.le_mul_of_pos_left L.length hs; omega)]
      exact ih (i + 1) (m + strideLineTrues L i stride)
    | false =>
      simp only [strideScan, strideScanAmended, Bool.false_eq_true, if_false]
      by_cases h5 : 5 ≤ m
      · rw [if_pos h5, if_pos h5]
      · rw [if_neg h5, if_neg h5]
        exact ih (i + 1) 0

/-- The session part of `gogui_rules_final_result_cmd` is exactly
`check_result` (the two functions repeat the same loops and updates). -/
theorem final_result_session (s : Session) :
    (gogui_rules_final_result_cmd s).1 = check_result s := by
  unfold gogui_rules_final_result_cmd check_result
  by_cases h1 : checkColor s.board (firstStonePoint s.board BLACK)
  · rw [if_pos h1, if_pos h1]
  · rw [if_neg h1, if_neg h1]
    by_cases h2 : checkColor s.board (firstStonePoint s.board WHITE)
    · rw [if_pos h2, if_pos h2]
    · rw [if_neg h2, if_neg h2]
      by_cases h3 : (s.board.get_empty_points).length = 0
      · rw [if_pos h3, if_pos h3]
      · rw [if_neg h3, if_neg h3]

/-- Evaluation of `move_to_coord` on a string whose lowering parses to an
on-board (row, col). -/
theorem move_to_coord_eval (str : String) (bs row col : Nat)
    (h1 : 2 ≤ bs) (h2 : bs ≤ MAXSIZE)
    (hp : pyLower str ≠ "pass")
    (hb : parse_body (pyLower str) = some (row, col))
    (hcol : col ≤ bs) (hrow : row ≤ bs) :
    move_to_coord str bs = .ok (.rc row col) := by
  unfold move_to_coord
  rw [if_neg (not_not_intro ⟨h1, h2⟩), if_neg hp, hb]
  dsimp only
  rw [if_neg (not_not_intro ⟨hcol, hrow⟩)]

/-- Extension of `check_result_win_mem`: if the win-color invariant held
before (conditionally on the game being over), it holds after the check. -/
theorem check_result_win_invariant (s : Session)
    (h : s.gameOver = true → s.win_color = 1 ∨ s.win_color = 2 ∨ s.win_color = 3) :
    (check_result s).gameOver = true →
      (check_result s).win_color = 1 ∨ (check_result s).win_color = 2 ∨
        (check_result s).win_color = 3 := by
  unfold check_result
  split
  · exact fun _ => Or.inl rfl
  · split
    · exact fun _ => Or.inr (Or.inl rfl)
    · split
      · exact fun _ => Or.inr (Or.inr rfl)
      · exact h

/-! ## Claim theorems -/

/-- C1, counterexample.  The claim says the column check (stride `size+1`)
accumulates "only over consecutive true mask positions, stopping the
accumulation at the first false or out-of-range position along the stride"
and signals a win "only when at least 5 consecutive same-colored cells lie
along that stride".  On `board_row5` (a plain horizontal five-in-a-row) the
column check fires although no 5 consecutive cells lie along stride
`size+1 = 8`; and on `board_gapcol`'s mask the inner accumulation from
position 9 counts 5 trues although the consecutive run along the stride is
only 3 (it does not stop at the false at (4,1)). -/
theorem claim1_counterexample :
    strideScan (board_row5.connected_component (firstStonePoint board_row5 BLACK))
        (board_row5.size + 1) 0 0
        (board_row5.connected_component (firstStonePoint board_row5 BLACK)) = true ∧
      hasFiveAlongStride
        (board_row5.connected_component (firstStonePoint board_row5 BLACK))
        (board_row5.size + 1) = false ∧
      countStride (board_gapcol.connected_component (firstStonePoint board_gapcol BLACK))
        9 (board_gapcol.size + 1)
        (board_gapcol.connected_component (firstStonePoint board_gapcol BLACK)).length = 5 ∧
      consecRunLen (board_gapcol.connected_component (firstStonePoint board_gapcol BLACK))
        9 (board_gapcol.size + 1)
        (board_gapcol.connected_component (firstStonePoint board_gapcol BLACK)).length = 3 := by
  decide

/-- C1, amended.  The column check (stride `size+1`) and the two diagonal
checks (strides `size+2` and `size`) accumulate, at each true mask position
in scan order, the count of *all* true positions along the stride from there
to the end of the mask — not stopping at the first false — carrying the sum
across scan positions and resetting it only at a false scan position where
it is still below 5; a win is signalled at the first false scan position
where the accumulated count is ≥ 5, which does not require 5 consecutive
same-colored cells along the stride. -/
theorem claim1_theorem :
    (∀ (L : List Bool) (stride : Nat), 1 ≤ stride →
        strideScan L stride 0 0 L = strideScanAmended L stride 0 0 L) ∧
    (∀ (b : Board) (seed : Nat), 1 ≤ b.size →
        checkColor b seed =
          (rowScan 0 (b.connected_component seed)
            || strideScanAmended (b.connected_component seed) (b.size + 1) 0 0
                 (b.connected_component seed)
            || strideScanAmended (b.connected_component seed) (b.size + 2) 0 0
                 (b.connected_component seed)
            || strideScanAmended (b.connected_component seed) b.size 0 0
                 (b.connected_component seed))) := by
  constructor
  · intro L stride hs
    exact strideScan_eq_amended L stride hs L 0 0
  · intro b seed hsz
    unfold checkColor
    dsimp only
    rw [strideScan_eq_amended _ _ (by omega) _ 0 0,
        strideScan_eq_amended _ _ (by omega) _ 0 0,
        strideScan_eq_amended _ _ hsz _ 0 0]
    rfl

/-- C1, witness: the equivalence at a concrete mask and stride. -/
theorem claim1_witness :
    strideScan [true, true, true, true, true, false] 1 0 0
      [true, true, true, true, true, false] =
      strideScanAmended [true, true, true, true, true, false] 1 0 0
        [true, true, true, true, true, false] :=
  claim1_theorem.1 [true, true, true, true, true, false] 1 (by decide)

/-- C2, counterexample.  At boardsize 25 the valid point (25, 1) cannot even
be encoded: `format_point` requires `row < MAXSIZE = 25` and raises
`ValueError`, so the round trip fails. -/
theorem claim2_counterexample :
    format_point 25 1 = none ∧
      ¬∃ str, format_point 25 1 = some str ∧ move_to_coord str 25 = .ok (.rc 25 1) := by
  refine ⟨by decide, ?_⟩
  rintro ⟨str, hs, -⟩
  rw [show format_point 25 1 = none from by decide] at hs
  exact Option.noConfusion hs

/-- C2, amended.  For every boardsize in [2,25] and every (row;col) with
1 ≤ row,col ≤ boardsize **and row < 25 and col < 25**, decoding the encoded
string returns the same pair; the excluded cells (row 25 or column 25 at
boardsize 25) make `format_point` raise `ValueError`. -/
theorem claim2_theorem :
    ∀ (bs row col : Nat), 2 ≤ bs → bs ≤ 25 →
      1 ≤ row → row ≤ bs → 1 ≤ col → col ≤ bs → row ≤ 24 → col ≤ 24 →
      ∃ str, format_point row col = some str ∧
        move_to_coord str bs = .ok (.rc row col) := by
  intro bs row col h1 h2 h3 h4 h5 h6 h7 h8
  interval_cases col <;> interval_cases row <;>
    exact ⟨_, rfl, move_to_coord_eval _ bs _ _ h1 h2 (by decide) (by decide)
      (by omega) (by omega)⟩

/-- C2, witness: the round trip at boardsize 9 for (4, 4) ("D4"). -/
theorem claim2_witness :
    ∃ str, format_point 4 4 = some str ∧ move_to_coord str 9 = .ok (.rc 4 4) :=
  claim2_theorem 9 4 4 (by decide) (by decide) (by decide) (by decide) (by decide)
    (by decide) (by decide) (by decide)

/-- C10, evaluation at the failing input.  On an empty size-7 board BLACK
has zero stones, yet `check_result` reports BLACK as the winner (the
first-stone scan falls through to index 63, an EMPTY cell, so the mask marks
every empty cell and the row scan finds a run of 7); the final-result
command answers "black".  The claim says a color with zero stones is skipped
and never reported. -/
theorem claim10_eval :
    stoneCount (emptyBoard 7) BLACK = 0 ∧
      check_result ⟨emptyBoard 7, false, -1⟩ = ⟨emptyBoard 7, true, 1⟩ ∧
      (gogui_rules_final_result_cmd ⟨emptyBoard 7, false, -1⟩).2 = respond "black" := by
  decide

/-- C3, counterexample.  The color token `"x"` fails validation, but the
emitted message is the generic exception message `Error: 'x'` (the
`KeyError` from `color_to_int`, raised before the wrong-color test at line
502 and caught by the blanket `except`), not a message identifying the
wrong-color check. -/
theorem claim3_counterexample :
    play_cmd (Session.reset 9) "x" "a1" = (Session.reset 9, respond "Error: 'x'") ∧
      respond "Error: 'x'" ≠ respond "illegal move: \"x\" wrong color" := by
  exact ⟨by decide, by decide⟩

/-- C3, amended.  Every validation failure of `play` leaves the session
unmodified, but the failure message identifies the failed check only on
some paths: a color token other than `b`/`w`/`e` is answered with the
generic exception message `Error: '<token>'` (the `color_to_int` lookup
raises before the color test); the token `e` does reach the specific
wrong-color message; coordinates caught by the letter/row bound pre-check
(lines 515-517) get the specific wrong-coordinate message; and occupied
points get the specific occupied message. -/
theorem claim3_theorem :
    (∀ (s : Session) (a0 a1 : String),
        (play_cmd s a0 a1).1 = s ∨ (play_cmd s a0 a1).2 = respond "") ∧
    (∀ (s : Session) (a0 a1 : String),
        pyLower a0 ≠ "b" → pyLower a0 ≠ "w" → pyLower a0 ≠ "e" →
        play_cmd s a0 a1 = (s, respond ("Error: '" ++ pyLower a0 ++ "'"))) ∧
    (∀ (s : Session) (a1 : String),
        play_cmd s "e" a1 = (s, respond "illegal move: \"e\" wrong color")) ∧
    (∀ (s : Session) (a0 a1 : String) (c0 : Char),
        (pyLower a0 = "b" ∨ pyLower a0 = "w") →
        (pyLower a1).data.head? = some c0 →
        ((c0.toNat : Int) - ('a'.toNat : Int) > (s.board.size : Int) ∨
          (¬((c0.toNat : Int) - ('a'.toNat : Int) > (s.board.size : Int)) ∧
            ∃ rowv, pyInt (pyDrop a1 1) = some rowv ∧ rowv > (s.board.size : Int))) →
        play_cmd s a0 a1 =
          (s, respond (pyLower ("illegal move: \"" ++ a1 ++ "\" wrong coordinate")))) ∧
    (∀ (s : Session) (a0 a1 : String) (c0 : Char) (rowv : Int) (row col : Nat),
        (pyLower a0 = "b" ∨ pyLower a0 = "w") →
        (pyLower a1).data.head? = some c0 →
        ¬((c0.toNat : Int) - ('a'.toNat : Int) > (s.board.size : Int)) →
        pyInt (pyDrop a1 1) = some rowv →
        ¬(rowv > (s.board.size : Int)) →
        move_to_coord a1 s.board.size = .ok (.rc row col) →
        s.board.get_color (coord_to_point row col s.board.size) ≠ EMPTY →
        play_cmd s a0 a1 =
          (s, respond ("illegal move: \"" ++ pyLower a1 ++ "\" occupied"))) := by
  refine ⟨fun s a0 a1 => (play_cmd_shape s a0 a1).2.2, ?_, ?_, ?_, ?_⟩
  · intro s a0 a1 hb hw he
    have hcolor : color_to_int (pyLower a0) = .error ("'" ++ pyLower a0 ++ "'") := by
      unfold color_to_int
      rw [if_neg hb, if_neg hw, if_neg he, if_neg (pyLower_ne_BORDER a0)]
    unfold play_cmd
    rw [hcolor]
    rfl
  · intro s a1
    unfold play_cmd
    rw [show color_to_int (pyLower "e") = .ok EMPTY from rfl]
    dsimp only
    rw [if_pos ⟨by decide, by decide⟩]
    rfl
  · intro s a0 a1 c0 htok hhead hoff
    unfold play_cmd
    rcases htok with h | h <;> rw [h]
    · rw [show color_to_int "b" = .ok BLACK from rfl]
      dsimp only
      rw [if_neg (by decide), hhead]
      dsimp only
      rcases hoff with h1 | ⟨h1, rowv, h2, h3⟩
      · rw [if_pos h1]
      · rw [if_neg h1, h2]
        dsimp only
        rw [if_pos h3]
    · rw [show color_to_int "w" = .ok WHITE from rfl]
      dsimp only
      rw [if_neg (by decide), hhead]
      dsimp only
      rcases hoff with h1 | ⟨h1, rowv, h2, h3⟩
      · rw [if_pos h1]
      · rw [if_neg h1, h2]
        dsimp only
        rw [if_pos h3]
  · intro s a0 a1 c0 rowv row col htok hhead h1 h2 h3 hmv hocc
    unfold play_cmd
    rcases htok with h | h <;> rw [h]
    · rw [show color_to_int "b" = .ok BLACK from rfl]
      dsimp only
      rw [if_neg (by decide), hhead]
      dsimp only
      rw [if_neg h1, h2]
      dsimp only
      rw [if_neg h3, if_neg (by decide), hmv]
      dsimp only
      rw [if_pos hocc]
    · rw [show color_to_int "w" = .ok WHITE from rfl]
      dsimp only
      rw [if_neg (by decide), hhead]
      dsimp only
      rw [if_neg h1, h2]
      dsimp only
      rw [if_neg h3, if_neg (by decide), hmv]
      dsimp only
      rw [if_pos hocc]

/-- C3, witness: the full color word "black" gets the generic exception
message; `play b z9` on size 9 is caught by the letter pre-check and gets
the wrong-coordinate message; replaying onto the stone just placed at a1
gets the occupied message. -/
theorem claim3_witness :
    play_cmd (Session.reset 2) "black" "a1" =
      (Session.reset 2, respond "Error: 'black'") ∧
      play_cmd (Session.reset 9) "b" "z9" =
        (Session.reset 9, respond (pyLower "illegal move: \"z9\" wrong coordinate")) ∧
      play_cmd (play_cmd (Session.reset 9) "b" "a1").1 "w" "a1" =
        ((play_cmd (Session.reset 9) "b" "a1").1,
         respond "illegal move: \"a1\" occupied") :=
  ⟨claim3_theorem.2.1 (Session.reset 2) "black" "a1" (by decide) (by decide) (by decide),
   claim3_theorem.2.2.2.1 (Session.reset 9) "b" "z9" 'z' (Or.inl rfl) rfl
     (Or.inl (by decide)),
   claim3_theorem.2.2.2.2 (play_cmd (Session.reset 9) "b" "a1").1 "w" "a1" 'a' 1 1 1
     (Or.inr rfl) rfl (by decide) rfl (by decide) (by decide) (by decide)⟩

/-- C4, counterexample.  On `board_bothfive` both colors have a horizontal
five-in-a-row, but the detector reports WHITE — the color checked second —
because BLACK's run occupies the tail of the extended index range and no
false mask position follows it to trigger any of BLACK's four checks. -/
theorem claim4_counterexample :
    hasFiveInRow board_bothfive BLACK = true ∧
      hasFiveInRow board_bothfive WHITE = true ∧
      check_result ⟨board_bothfive, false, -1⟩ = ⟨board_bothfive, true, 2⟩ ∧
      (gogui_rules_final_result_cmd ⟨board_bothfive, false, -1⟩).2 = respond "white" := by
  decide

/-- C4, amended.  Whenever the first-checked color's (BLACK's) scan fires,
the detector reports BLACK and the WHITE scan is irrelevant; but a
five-in-a-row does not always make the scan fire (a run with no subsequent
false mask position is missed), so with both colors on five-in-a-row the
detector may report WHITE. -/
theorem claim4_theorem (s : Session)
    (h : checkColor s.board (firstStonePoint s.board BLACK) = true) :
    check_result s = { s with gameOver := true, win_color := 1 } ∧
      gogui_rules_final_result_cmd s =
        ({ s with gameOver := true, win_color := 1 }, respond "black") := by
  unfold check_result gogui_rules_final_result_cmd
  rw [if_pos h, if_pos h]
  exact ⟨rfl, rfl⟩

/-- C4, witness: with BLACK's five-in-a-row in the interior, BLACK's scan
fires and BLACK is reported. -/
theorem claim4_witness :
    check_result ⟨board_row5, false, -1⟩ = ⟨board_row5, true, 1⟩ ∧
      gogui_rules_final_result_cmd ⟨board_row5, false, -1⟩ =
        (⟨board_row5, true, 1⟩, respond "black") :=
  claim4_theorem ⟨board_row5, false, -1⟩ (by decide)

/-- C5, counterexample.  On `board_gapcol` neither color has a
five-in-a-row and empty points remain, so the claim demands the UNDECIDED
verdict with the session unchanged; but the column check fires on the five
non-consecutive stones of column 1 and the detector declares BLACK the
winner. -/
theorem claim5_counterexample :
    hasFiveInRow board_gapcol BLACK = false ∧
      hasFiveInRow board_gapcol WHITE = false ∧
      (board_gapcol.get_empty_points).length ≠ 0 ∧
      check_result ⟨board_gapcol, false, -1⟩ = ⟨board_gapcol, true, 1⟩ := by
  decide

/-- C5, amended.  For every session in which neither color's *scan fires*
(rather than: neither color has a five-in-a-row): with zero empty points
the verdict is DRAW (`gameOver` set, `win_color = 3`, response "draw"), and
with an empty point remaining the session is unchanged and the final-result
response is "unknown". -/
theorem claim5_theorem (s : Session)
    (hb : checkColor s.board (firstStonePoint s.board BLACK) = false)
    (hw : checkColor s.board (firstStonePoint s.board WHITE) = false) :
    ((s.board.get_empty_points).length = 0 →
       check_result s = { s with gameOver := true, win_color := 3 } ∧
         gogui_rules_final_result_cmd s =
           ({ s with gameOver := true, win_color := 3 }, respond "draw")) ∧
    ((s.board.get_empty_points).length ≠ 0 →
       check_result s = s ∧
         gogui_rules_final_result_cmd s = (s, respond "unknown")) := by
  constructor
  · intro h0
    unfold check_result gogui_rules_final_result_cmd
    rw [if_neg (by simp [hb]), if_neg (by simp [hw]), if_pos h0,
        if_neg (by simp [hb]), if_neg (by simp [hw]), if_pos h0]
    exact ⟨rfl, rfl⟩
  · intro hne
    unfold check_result gogui_rules_final_result_cmd
    rw [if_neg (by simp [hb]), if_neg (by simp [hw]), if_neg hne,
        if_neg (by simp [hb]), if_neg (by simp [hw]), if_neg hne]
    exact ⟨rfl, rfl⟩

/-- C5, witness: the full quiet board yields DRAW; the empty size-2 board
(no scan fires there) is left unchanged. -/
theorem claim5_witness :
    check_result ⟨board_full2, false, -1⟩ = ⟨board_full2, true, 3⟩ ∧
      check_result ⟨emptyBoard 2, false, -1⟩ = ⟨emptyBoard 2, false, -1⟩ :=
  ⟨((claim5_theorem ⟨board_full2, false, -1⟩ (by decide) (by decide)).1 (by decide)).1,
   ((claim5_theorem ⟨emptyBoard 2, false, -1⟩ (by decide) (by decide)).2 (by decide)).1⟩

/-- C6.  `play b D4` on a fresh size-9 session responds exactly `"= \n\n"`,
writes BLACK into the D4 cell (index 44) and flips the current player to
WHITE; replaying the same move is answered with the occupied message and
returns the session unchanged. -/
theorem claim6_theorem :
    respond "" = "= \n\n" ∧
      (play_cmd (Session.reset 9) "b" "D4").2 = "= \n\n" ∧
      (play_cmd (Session.reset 9) "b" "D4").1.board.get_color
        (coord_to_point 4 4 9) = BLACK ∧
      (play_cmd (Session.reset 9) "b" "D4").1.board.current_player = WHITE ∧
      play_cmd (play_cmd (Session.reset 9) "b" "D4").1 "b" "D4" =
        ((play_cmd (Session.reset 9) "b" "D4").1,
         respond "illegal move: \"d4\" occupied") := by
  decide

/-- C7.  `genmove` never mutates the board (and hence never switches the
current player, which lives on the board); and on a session whose game is
already over — with a properly recorded winner — the response is "resign"
when the winner recorded at response time (genmove re-runs the result check
first) differs from the requesting color and is not the draw marker,
"pass" on a draw, and the empty success otherwise. -/
theorem claim7_theorem :
    (∀ (s : Session) (a0 : String) (sh : List Nat),
        (genmove_cmd s a0 sh).session.board = s.board) ∧
    (∀ (s : Session) (a0 : String) (sh : List Nat) (color : Nat),
        color_to_int (pyLower a0) = .ok color →
        s.gameOver = true →
        (s.win_color = 1 ∨ s.win_color = 2 ∨ s.win_color = 3) →
        genmove_cmd s a0 sh =
          .ok (check_result s)
            [respond (if (check_result s).win_color ≠ (color : Int) ∧
                          (check_result s).win_color ≠ 3 then "resign"
                      else if (check_result s).win_color = 3 then "pass"
                      else "")]) := by
  constructor
  · intro s a0 sh
    rcases genmove_cmd_session s a0 sh with h | h
    · rw [h]
    · rw [h, check_result_board]
  · intro s a0 sh color hcolor hover hwin
    have hover' : (check_result s).gameOver = true := check_result_gameOver s hover
    have hwin' := check_result_win_mem s hwin
    unfold genmove_cmd
    dsimp only
    rw [hcolor]
    dsimp only
    rw [if_neg (by rw [hover']; exact fun h => Bool.noConfusion h)]
    by_cases hr : (check_result s).win_color ≠ (color : Int) ∧
        (check_result s).win_color ≠ 3
    · rw [if_pos ⟨by rcases hwin' with h | h | h <;> rw [h] <;> decide, hr.1, hr.2⟩,
          if_pos hr]
    · rw [if_neg (fun h => hr ⟨h.2.1, h.2.2⟩), if_neg hr]
      by_cases h3 : (check_result s).win_color = 3
      · rw [if_pos h3, if_pos h3]
      · rw [if_neg h3, if_neg h3]

/-- C7, witness: `genmove w` on a session already won by BLACK responds
"resign" and leaves board and current player alone. -/
theorem claim7_witness :
    genmove_cmd ⟨board_row5, true, 1⟩ "w" [] =
      .ok ⟨board_row5, true, 1⟩ [respond "resign"] := by
  have h := claim7_theorem.2 ⟨board_row5, true, 1⟩ "w" [] 2 (by decide) rfl (Or.inl rfl)
  rw [h]
  decide

/-- C8.  For any command table: when the dispatcher reaches a known
command's handler and that handler raises, `get_cmd` logs the failure and
its stack trace with `debug_msg` and re-raises the same exception (lines
113-119); and the `play` handler in particular never lets an exception
propagate — it recovers every failure as a protocol response. -/
theorem claim8_theorem :
    (∀ (cmds : String → Option Handler) (amap : String → Option (Nat × String))
        (trace : String) (s : Session) (line name : String) (args : List String)
        (h : Handler) (se : Session) (e : String),
        (pyStrip line).length ≠ 0 →
        line.data.headD ' ' ≠ '#' →
        pySplit (if (line.data.headD ' ').isDigit then strip_leading_number line
                 else line) = name :: args →
        (∀ n usage, amap name = some (n, usage) → n = args.length) →
        cmds name = some h →
        h args s = .err se e →
        get_cmd cmds amap trace s line =
          ⟨se, [],
           ["Error executing command " ++ e ++ "\n", "Stack Trace:\n" ++ trace ++ "\n"],
           some e⟩) ∧
    (∀ (args : List String) (s : Session), ∃ s' out, play_handler args s = .ok s' out) := by
  constructor
  · intro cmds amap trace s line name args h se e hne hhash hsplit hamap hcmds hrun
    unfold get_cmd
    rw [if_neg hne, if_neg hhash]
    dsimp only
    rw [hsplit]
    dsimp only
    cases ha : amap name with
    | none =>
      dsimp only
      rw [hcmds]
      dsimp only
      rw [hrun]
    | some nu =>
      have hn : nu.1 = args.length := hamap nu.1 nu.2 (by rw [ha])
      dsimp only
      rw [if_neg (not_not_intro hn)]
      dsimp only
      rw [hcmds]
      dsimp only
      rw [hrun]
  · intro args s
    match args with
    | [] => exact ⟨s, [respond "Error: list index out of range"], rfl⟩
    | [a0] => exact ⟨s, [respond "Error: list index out of range"], rfl⟩
    | a0 :: a1 :: rest => exact ⟨(play_cmd s a0 a1).1, [(play_cmd s a0 a1).2], rfl⟩

/-- C8, witness: `genmove x` raises `KeyError('x')` inside the handler; the
dispatcher logs both diagnostic lines and re-raises it. -/
theorem claim8_witness :
    get_cmd (commands []) argmap "TRACE" (Session.reset 2) "genmove x" =
      ⟨Session.reset 2, [],
       ["Error executing command 'x'\n", "Stack Trace:\nTRACE\n"], some "'x'"⟩ := by
  refine claim8_theorem.1 (commands []) argmap "TRACE" (Session.reset 2) "genmove x"
    "genmove" ["x"] (genmove_handler []) (Session.reset 2) "'x'"
    (by decide) (by decide) (by decide) ?_ rfl (by decide)
  intro n usage hn
  rw [show argmap "genmove" = some (1, "Usage: genmove \x7bw,b\x7d") from rfl] at hn
  cases hn
  rfl

/-- C9, counterexample.  A reachable command sequence with no reset changes
the recorded winner: after `cmds_white_wins` the session is game-over with
winner WHITE (2); the further non-reset commands `cmds_after_win` leave the
game over but change the winner to BLACK (1). -/
theorem claim9_counterexample :
    cmds_after_win.all (fun c => !c.isReset) = true ∧
      (cmds_white_wins.foldl step (Session.reset 7)).gameOver = true ∧
      (cmds_white_wins.foldl step (Session.reset 7)).win_color = 2 ∧
      (cmds_after_win.foldl step (cmds_white_wins.foldl step (Session.reset 7))).gameOver
        = true ∧
      (cmds_after_win.foldl step (cmds_white_wins.foldl step (Session.reset 7))).win_color
        = 1 := by
  decide

/-- C9, amended.  Once `gameOver` is true it stays true under every
non-reset command, and the winner stays in {BLACK, WHITE, DRAW} = {1,2,3};
the reset commands clear both fields.  The winner *value*, however, may
change (without a reset) when play continues after the game is over and a
later command re-runs the result check. -/
theorem claim9_theorem :
    (∀ (s : Session) (c : Cmd), c.isReset = false → s.gameOver = true →
        (step s c).gameOver = true) ∧
    (∀ (s : Session) (c : Cmd),
        (s.gameOver = true → s.win_color = 1 ∨ s.win_color = 2 ∨ s.win_color = 3) →
        (step s c).gameOver = true →
          (step s c).win_color = 1 ∨ (step s c).win_color = 2 ∨
            (step s c).win_color = 3) ∧
    (∀ (s : Session) (n : Nat),
        (step s (.boardsize n)).gameOver = false ∧
          (step s (.boardsize n)).win_color = -1 ∧
          (step s .clear_board).gameOver = false ∧
          (step s .clear_board).win_color = -1) := by
  refine ⟨?_, ?_, fun s n => ⟨rfl, rfl, rfl, rfl⟩⟩
  · intro s c hres hover
    cases c with
    | play a0 a1 => rw [show step s (.play a0 a1) = (play_cmd s a0 a1).1 from rfl,
        (play_cmd_shape s a0 a1).1]; exact hover
    | genmove a0 sh =>
      rcases genmove_cmd_session s a0 sh with h | h
      · rw [show step s (.genmove a0 sh) = (genmove_cmd s a0 sh).session from rfl, h]
        exact hover
      · rw [show step s (.genmove a0 sh) = (genmove_cmd s a0 sh).session from rfl, h]
        exact check_result_gameOver s hover
    | boardsize n => exact absurd hres (by simp [Cmd.isReset])
    | clear_board => exact absurd hres (by simp [Cmd.isReset])
    | final_result =>
      rw [show step s .final_result = (gogui_rules_final_result_cmd s).1 from rfl,
        final_result_session]
      exact check_result_gameOver s hover
    | legal_moves => exact check_result_gameOver s hover
    | inert => exact hover
  · intro s c hinv
    cases c with
    | play a0 a1 =>
      intro hover
      rw [show step s (.play a0 a1) = (play_cmd s a0 a1).1 from rfl,
        (play_cmd_shape s a0 a1).2.1]
      rw [show step s (.play a0 a1) = (play_cmd s a0 a1).1 from rfl,
        (play_cmd_shape s a0 a1).1] at hover
      exact hinv hover
    | genmove a0 sh =>
      rcases genmove_cmd_session s a0 sh with h | h
      · rw [show step s (.genmove a0 sh) = (genmove_cmd s a0 sh).session from rfl, h]
        exact hinv
      · rw [show step s (.genmove a0 sh) = (genmove_cmd s a0 sh).session from rfl, h]
        exact check_result_win_invariant s hinv
    | boardsize n => intro h; exact absurd h (by simp [step, Session.reset])
    | clear_board => intro h; exact absurd h (by simp [step, Session.reset])
    | final_result =>
      rw [show step s .final_result = (gogui_rules_final_result_cmd s).1 from rfl,
        final_result_session]
      exact check_result_win_invariant s hinv
    | legal_moves => exact check_result_win_invariant s hinv
    | inert => exact hinv

/-- C9, witness: the invariant applied at a concrete game-over session and
a non-reset command. -/
theorem claim9_witness :
    (step ⟨board_row5, true, 1⟩ .legal_moves).gameOver = true ∧
      ((step ⟨board_row5, true, 1⟩ .legal_moves).win_color = 1 ∨
        (step ⟨board_row5, true, 1⟩ .legal_moves).win_color = 2 ∨
        (step ⟨board_row5, true, 1⟩ .legal_moves).win_color = 3) :=
  ⟨claim9_theorem.1 ⟨board_row5, true, 1⟩ .legal_moves rfl rfl,
   claim9_theorem.2.1 ⟨board_row5, true, 1⟩ .legal_moves (fun _ => Or.inl rfl)
     (claim9_theorem.1 ⟨board_row5, true, 1⟩ .legal_moves rfl rfl)⟩

end Gomoku
